import Mathlib

/-!
Verification of the resource-allocation rule engine, aggregator and
manifest generator of the tiny-workloads repository (`main.go`).

Embedding conventions:
* Go `int` fields are modelled as `Int`; Go integer division (which
  truncates toward zero) is `Int.tdiv`.
* Go `float64` arithmetic is modelled exactly over `ℚ`; the divisions and
  the constants `0.8`, `0.75`, `0.25` appearing in the program are exact in
  this model.  `fmt`'s `%.2f` is modelled by `formatFloat2`.
* Go `error` values are modelled as `Option String` (the rendered message).
* Channel sends are modelled as returned values, and the arrival order of
  the three concurrently produced results is an explicit list parameter.
* Wall-clock timing (`time.Since`) is environment dependent and carries no
  decision content; the `duration` field is set to `0` by the rule
  functions, and `durationString` is a simplified stand-in for
  `time.Duration.String` (no claim depends on its exact text).
* File-system effects of `generateAndWriteManifest` are modelled by an
  explicit outcome parameter (`none` = both `MkdirAll` and `WriteFile`
  succeed, `some e` = the formatted error of the failing call).
-/

/-- `ConfigSpec` from `main.go`: the application specification collected by
the wizard. -/
structure ConfigSpec where
  appName : String
  expectedLoad : Int
  dataSize : Int
  networkTraffic : Int
  importanceLevel : String
  deriving DecidableEq, Repr, Inhabited

/-- `ComputeSpec` from `main.go`: decided compute resources.  `CPU` is a
Go `float64`, modelled as `ℚ`. -/
structure ComputeSpec where
  cpu : ℚ
  memory : String
  deriving DecidableEq, Repr, Inhabited

/-- `NetworkSpec` from `main.go`: decided network resources. -/
structure NetworkSpec where
  bandwidth : String
  ports : List Int
  deriving DecidableEq, Repr, Inhabited

/-- `StorageSpec` from `main.go`: decided storage resources.  The Go field
`Class` is named `storageClass` here because `class` is a Lean keyword. -/
structure StorageSpec where
  capacity : String
  storageClass : String
  deriving DecidableEq, Repr, Inhabited

/-- `TimedResult` from `main.go`: outcome of one decision function.
`duration` is in the role of Go `time.Duration`; `error` is the rendered
Go error message, `none` meaning `nil`.  `default` (all fields zero/empty)
is the Go zero value used when a map key is absent. -/
structure TimedResult where
  name : String
  computeSpec : ComputeSpec
  networkSpec : NetworkSpec
  storageSpec : StorageSpec
  error : Option String
  duration : Nat
  deriving DecidableEq, Repr, Inhabited

/-- `decideCompute` from `main.go` (lines 497-525).  The channel send is
modelled as the returned `TimedResult`; the simulated sleep and the
measured duration carry no decision content. -/
def ConfigSpec.decideCompute (config : ConfigSpec) : TimedResult :=
  let cpu : ℚ := (config.expectedLoad : ℚ) / 150
  let memory : String := "256Mi"
  let cpu := if config.expectedLoad > 300 then cpu + 0.75 else cpu
  let memory := if config.expectedLoad > 300 then "512Mi" else memory
  let cpu := if config.importanceLevel = "high" then cpu + 0.25 else cpu
  let memory := if config.importanceLevel = "high" then "1Gi" else memory
  let memory :=
    if config.dataSize > 50 then
      toString (256 + config.dataSize.tdiv 4) ++ "Mi"
    else memory
  { name := "compute"
    computeSpec := { cpu := cpu, memory := memory }
    networkSpec := default
    storageSpec := default
    error := none
    duration := 0 }

/-- `decideNetwork` from `main.go` (lines 527-550). -/
def ConfigSpec.decideNetwork (config : ConfigSpec) : TimedResult :=
  let bandwidth : String := "50Mbps"
  let ports : List Int := [8080]
  let bandwidth := if config.networkTraffic > 25 then "200Mbps" else bandwidth
  let ports := if config.importanceLevel = "high" then ports ++ [443] else ports
  { name := "network"
    computeSpec := default
    networkSpec := { bandwidth := bandwidth, ports := ports }
    storageSpec := default
    error := none
    duration := 0 }

/-- `decideStorage` from `main.go` (lines 552-576). -/
def ConfigSpec.decideStorage (config : ConfigSpec) : TimedResult :=
  let capacity : String := "5Gi"
  let storageClass : String := "standard"
  let capacity :=
    if config.dataSize > 250 then toString (5 + config.dataSize.tdiv 100) ++ "Gi"
    else capacity
  let storageClass := if config.dataSize > 250 then "premium" else storageClass
  let capacity := if config.importanceLevel = "high" then "20Gi" else capacity
  { name := "storage"
    computeSpec := default
    networkSpec := default
    storageSpec := { capacity := capacity, storageClass := storageClass }
    error := none
    duration := 0 }

/-- The three results produced by `collectTimedResourceSpecs`'s goroutines
(`main.go` lines 482-484), in spawn order.  A concrete run delivers them on
the channel in some permutation of this list. -/
def ruleResults (config : ConfigSpec) : List TimedResult :=
  [config.decideCompute, config.decideNetwork, config.decideStorage]

/-- The loop body of `collectTimedResourceSpecs` (`main.go` lines 486-494)
once the arrival order of the channel messages is fixed as a list.  The
first component of the result models the returned map (`none` stands for
Go `nil`), the second the returned error.  `acc` is the `timedResults` map
built so far; `m[result.Name] = result` is keyed-overwrite insertion. -/
def collectLoop : List TimedResult → (String → Option TimedResult) →
    Option (String → Option TimedResult) × Option String
  | [], acc => (some acc, none)
  | r :: rs, acc =>
    match r.error with
    | some e => (none, some ("error in " ++ r.name ++ " decision: " ++ e))
    | none => collectLoop rs (fun k => if k = r.name then some r else acc k)

/-- `collectTimedResourceSpecs` from `main.go` (lines 480-495), as a
function of the list of results in channel-arrival order.  A real run of
the program feeds it some permutation of `ruleResults config`. -/
def collectTimedResourceSpecs (arrivals : List TimedResult) :
    Option (String → Option TimedResult) × Option String :=
  collectLoop arrivals (fun _ => none)

/-- The final map built by `collectLoop` on an error-free arrival list:
keyed overwrite means the last result with a given name wins, hence the
`find?` on the reversed list, falling back to the initial map. -/
def lookupArrivals (rs : List TimedResult) (acc : String → Option TimedResult)
    (k : String) : Option TimedResult :=
  match rs.reverse.find? (fun r => r.name == k) with
  | some r => some r
  | none => acc k

/-- Models `fmt`'s `%.2f` under the exact rational model of `float64`:
round to the nearest hundredth (half up) and print with exactly two
decimal digits. -/
def formatFloat2 (x : ℚ) : String :=
  let n : Int := ⌊x * 100 + 1 / 2⌋
  let sign : String := if n < 0 then "-" else ""
  let m : Nat := n.natAbs
  sign ++ toString (m / 100) ++ "." ++ (if m % 100 < 10 then "0" else "") ++ toString (m % 100)

/-- One iteration of the port loop of `generateKubernetesManifest`
(`main.go` lines 581-586): the text appended for a single port. -/
def portEntry (port : Int) : String :=
  "\n          - containerPort: " ++ toString port ++ "\n            protocol: TCP\n        "

/-- `generateKubernetesManifest` from `main.go` (lines 579-635).  The
`timedResults` map is a total function to `Option`; a missing key yields
the Go zero value (`default`), as Go map indexing does. -/
def generateKubernetesManifest (appName : String)
    (timedResults : String → Option TimedResult) (ports : List Int) : String :=
  let portString : String := ports.foldl (fun s port => s ++ portEntry port) ""
  let computeResult := (timedResults "compute").getD default
  let networkResult := (timedResults "network").getD default
  let storageResult := (timedResults "storage").getD default
  "\napiVersion: apps/v1\nkind: Deployment\nmetadata:\n  name: " ++ appName ++
    "-deployment\nspec:\n  replicas: 1\n  selector:\n    matchLabels:\n      app: " ++ appName ++
    "\n  template:\n    metadata:\n      labels:\n        app: " ++ appName ++
    "\n    spec:\n      containers:\n      - name: " ++ appName ++
    "-container\n        image: your-app-image:latest # Replace with your actual image\n        resources:\n          requests:\n            cpu: \"" ++
    formatFloat2 (computeResult.computeSpec.cpu * 0.8) ++
    "\"\n            memory: \"" ++ computeResult.computeSpec.memory ++
    "\"\n          limits:\n            cpu: \"" ++ formatFloat2 computeResult.computeSpec.cpu ++
    "\"\n            memory: \"" ++ computeResult.computeSpec.memory ++
    "\"\n        ports:\n" ++ portString ++
    "\n        env:\n          - name: NETWORK_BANDWIDTH\n            value: \"" ++
    networkResult.networkSpec.bandwidth ++
    "\"\n          - name: STORAGE_CAPACITY\n            value: \"" ++
    storageResult.storageSpec.capacity ++
    "\"\n          - name: STORAGE_CLASS\n            value: \"" ++
    storageResult.storageSpec.storageClass ++ "\"\n"

/-- The deployment-descriptor shape described in the spec, as a template
over its nine variable fields: request CPU, request memory, limit CPU,
limit memory, the ports section, and the three environment values.  It is
compared with `generateKubernetesManifest` to check which computed value
lands in which slot. -/
def specManifest (appName reqCpu reqMem limCpu limMem portSection bandwidth capacity storageClass : String) : String :=
  "\napiVersion: apps/v1\nkind: Deployment\nmetadata:\n  name: " ++ appName ++
    "-deployment\nspec:\n  replicas: 1\n  selector:\n    matchLabels:\n      app: " ++ appName ++
    "\n  template:\n    metadata:\n      labels:\n        app: " ++ appName ++
    "\n    spec:\n      containers:\n      - name: " ++ appName ++
    "-container\n        image: your-app-image:latest # Replace with your actual image\n        resources:\n          requests:\n            cpu: \"" ++
    reqCpu ++ "\"\n            memory: \"" ++ reqMem ++
    "\"\n          limits:\n            cpu: \"" ++ limCpu ++
    "\"\n            memory: \"" ++ limMem ++
    "\"\n        ports:\n" ++ portSection ++
    "\n        env:\n          - name: NETWORK_BANDWIDTH\n            value: \"" ++
    bandwidth ++
    "\"\n          - name: STORAGE_CAPACITY\n            value: \"" ++
    capacity ++
    "\"\n          - name: STORAGE_CLASS\n            value: \"" ++
    storageClass ++ "\"\n"

/-- The wizard phases of `main.go` (`inputState` constants, lines 89-96). -/
inductive InputState where
  | text
  | pick
  | processing
  | done
  deriving DecidableEq, Repr

/-- Simplified stand-in for `time.Duration.String` used by the summary.
No claim inspects its text; durations are wall-clock artefacts. -/
def durationString (n : Nat) : String :=
  toString n ++ "ns"

/-- Go `fmt`'s `%v` rendering of an `[]int`, used for the port list in the
summary: elements space separated between brackets. -/
def intListString (xs : List Int) : String :=
  "[" ++ String.intercalate " " (xs.map toString) ++ "]"

/-- The slice of the Bubble Tea `model` (`main.go` lines 62-87) that the
result-handling and output-generation code reads and writes.  The wizard
widgets, spinner and terminal size are presentation state with no bearing
on the verified behaviour. -/
structure AppModel where
  config : ConfigSpec
  inputState : InputState
  processing : Bool
  result : Option (String → Option TimedResult)
  err : Option String
  k8sManifestPath : String
  output : String

/-- `generateAndWriteManifest` from `main.go` (lines 638-660).  The
file-system outcome of `MkdirAll` + `WriteFile` is the explicit `fs`
parameter: `none` means both succeed, `some e` carries the formatted error
of the failing call.  Returns the updated model and the returned error. -/
def generateAndWriteManifest (m : AppModel) (fs : Option String) :
    AppModel × Option String :=
  match m.result with
  | none => (m, some "no results available to generate manifest")
  | some _ =>
    let outputPath := "k8s/" ++ m.config.appName ++ "-deployment.yaml"
    match fs with
    | some e => (m, some e)
    | none => ({ m with k8sManifestPath := outputPath }, none)

/-- `generateOutput` from `main.go` (lines 663-703): the Markdown summary
handed to Glamour.  When `err` is set it returns the empty string (error
rendering is done in `View`). -/
def generateOutput (m : AppModel) : String :=
  if m.err.isSome then ""
  else
    match m.result with
    | none => "# No Results"
    | some res =>
      let computeResult := (res "compute").getD default
      let networkResult := (res "network").getD default
      let storageResult := (res "storage").getD default
      "# Resource Allocation Decision\n\n" ++ "## Decided Resources\n\n" ++
        "- **Compute:** CPU=" ++ formatFloat2 computeResult.computeSpec.cpu ++
        " cores, Memory=" ++ computeResult.computeSpec.memory ++
        " (took " ++ durationString computeResult.duration ++ ")\n" ++
        "- **Network:** Bandwidth=" ++ networkResult.networkSpec.bandwidth ++
        ", Ports=" ++ intListString networkResult.networkSpec.ports ++
        " (took " ++ durationString networkResult.duration ++ ")\n" ++
        "- **Storage:** Capacity=" ++ storageResult.storageSpec.capacity ++
        ", Class=" ++ storageResult.storageSpec.storageClass ++
        " (took " ++ durationString storageResult.duration ++ ")\n" ++
        (if m.k8sManifestPath ≠ "" then
          "\n## File Generated\n\nDeployment file generated within `" ++
            m.k8sManifestPath ++ "`\n"
        else "")

/-- The `ProcessCompleteMsg` branch of `Update` (`main.go` lines 359-373):
store the results, attempt to generate and write the manifest, record any
failure in `err`, then build the output summary. -/
def updateProcessComplete (m : AppModel) (msg : String → Option TimedResult)
    (fs : Option String) : AppModel :=
  let m1 := { m with processing := false, result := some msg, inputState := InputState.done }
  let step := generateAndWriteManifest m1 fs
  let m2 :=
    match step.2 with
    | some e => { step.1 with err := some ("failed to generate/write manifest: " ++ e) }
    | none => step.1
  { m2 with output := generateOutput m2 }

/-- The `inputStateDone` branch of `View` (`main.go` lines 422-437), before
Glamour rendering (Glamour turns Markdown into ANSI text and is not
modelled): with an error set it renders only the error template, otherwise
it renders `output`. -/
def viewDone (m : AppModel) : String :=
  match m.err with
  | some e => "# Error\n\n```\n" ++ e ++ "\n```"
  | none => m.output

/-- Right fold concatenation of a list of strings; used to state that the
port section of the manifest is exactly one entry per port, in order. -/
def concatStrings (l : List String) : String :=
  l.foldr (fun a b => a ++ b) ""

/-- The success map the aggregator builds from the three rule results of a
configuration, written out explicitly. -/
def resultMapFor (c : ConfigSpec) : String → Option TimedResult :=
  fun k =>
    if k = "compute" then some c.decideCompute
    else if k = "network" then some c.decideNetwork
    else if k = "storage" then some c.decideStorage
    else none

/-- A model in the processing phase, right before the results message
arrives: no results, no error, nothing written yet. -/
def processingModel (c : ConfigSpec) : AppModel :=
  { config := c
    inputState := InputState.processing
    processing := true
    result := none
    err := none
    k8sManifestPath := ""
    output := "" }

/-- Concrete input of the C1 test vector: expectedLoad 350, dataSize 60,
importance high. -/
def cfg350 : ConfigSpec :=
  { appName := "web-app", expectedLoad := 350, dataSize := 60
    networkTraffic := 30, importanceLevel := "high" }

/-- Concrete medium-importance input used for the manifest-failure
scenario and as a generic witness input. -/
def cfgMedium : ConfigSpec :=
  { appName := "web-app", expectedLoad := 200, dataSize := 40
    networkTraffic := 10, importanceLevel := "medium" }

/-- Concrete low-importance input with dataSize above the memory-override
threshold. -/
def cfgData60 : ConfigSpec :=
  { appName := "svc", expectedLoad := 100, dataSize := 60
    networkTraffic := 10, importanceLevel := "low" }

/-- Concrete high-importance input with dataSize above the storage
threshold. -/
def cfgStorage300 : ConfigSpec :=
  { appName := "db", expectedLoad := 10, dataSize := 300
    networkTraffic := 5, importanceLevel := "high" }

/-- Concrete high-importance input with small dataSize. -/
def cfgSmallHigh : ConfigSpec :=
  { appName := "db", expectedLoad := 10, dataSize := 100
    networkTraffic := 5, importanceLevel := "high" }

/-- A hypothetical failing decision result, exercising the aggregator's
failure branch (none of the real rule functions produces one). -/
def badNetworkResult : TimedResult :=
  { name := "network", computeSpec := default, networkSpec := default
    storageSpec := default, error := some "boom", duration := 0 }


/-- The name tag of the compute decision result. -/
@[simp] theorem decideCompute_name (c : ConfigSpec) : c.decideCompute.name = "compute" := rfl

/-- The name tag of the network decision result. -/
@[simp] theorem decideNetwork_name (c : ConfigSpec) : c.decideNetwork.name = "network" := rfl

/-- The name tag of the storage decision result. -/
@[simp] theorem decideStorage_name (c : ConfigSpec) : c.decideStorage.name = "storage" := rfl

/-- The compute rule never signals an error. -/
@[simp] theorem decideCompute_error (c : ConfigSpec) : c.decideCompute.error = none := rfl

/-- The network rule never signals an error. -/
@[simp] theorem decideNetwork_error (c : ConfigSpec) : c.decideNetwork.error = none := rfl

/-- The storage rule never signals an error. -/
@[simp] theorem decideStorage_error (c : ConfigSpec) : c.decideStorage.error = none := rfl

/-- Running the port loop of the manifest generator from an arbitrary
accumulator appends exactly one entry per port, in list order. -/
theorem foldl_portEntry_eq (ports : List Int) (s : String) :
    ports.foldl (fun acc p => acc ++ portEntry p) s = s ++ concatStrings (ports.map portEntry) := by
  induction ports generalizing s with
  | nil => simp [concatStrings]
  | cons p ps ih =>
    simp only [List.foldl_cons, List.map_cons]
    rw [ih (s ++ portEntry p)]
    simp [concatStrings, String.append_assoc]

/-- If some arrival carries an error, the collection loop stops with a
`nil` map and an error naming that arrival (the first failing one). -/
theorem collectLoop_error (rs : List TimedResult) :
    ∀ acc, (∃ r ∈ rs, r.error ≠ none) →
      ∃ r ∈ rs, ∃ e, r.error = some e ∧
        collectLoop rs acc = (none, some ("error in " ++ r.name ++ " decision: " ++ e)) := by
  induction rs with
  | nil => intro acc h; simp at h
  | cons r rs ih =>
    intro acc h
    cases herr : r.error with
    | some e =>
      exact ⟨r, List.mem_cons_self r rs, e, herr, by simp [collectLoop, herr]⟩
    | none =>
      obtain ⟨r₀, hr₀, he₀⟩ := h
      rcases List.mem_cons.mp hr₀ with rfl | hmem
      · exact absurd herr he₀
      · obtain ⟨r₁, h₁, e₁, he₁, hc⟩ :=
          ih (fun k => if k = r.name then some r else acc k) ⟨r₀, hmem, he₀⟩
        exact ⟨r₁, List.mem_cons_of_mem _ h₁, e₁, he₁, by simp [collectLoop, herr, hc]⟩

/-- On an error-free arrival list the collection loop succeeds, and the
final map is last-insert-wins lookup over the arrivals. -/
theorem collectLoop_ok (rs : List TimedResult) :
    ∀ acc, (∀ r ∈ rs, r.error = none) →
      collectLoop rs acc = (some (lookupArrivals rs acc), none) := by
  induction rs with
  | nil =>
    intro acc _
    simp only [collectLoop, Prod.mk.injEq, and_true, Option.some.injEq]
    funext k
    simp [lookupArrivals]
  | cons r rs ih =>
    intro acc h
    have herr : r.error = none := h r (List.mem_cons_self r rs)
    have hstep : collectLoop (r :: rs) acc =
        collectLoop rs (fun k => if k = r.name then some r else acc k) := by
      simp [collectLoop, herr]
    rw [hstep, ih _ (fun x hx => h x (List.mem_cons_of_mem _ hx))]
    simp only [Prod.mk.injEq, and_true, Option.some.injEq]
    funext k
    simp only [lookupArrivals, List.reverse_cons, List.find?_append]
    cases hf : rs.reverse.find? (fun x => x.name == k) with
    | some r₁ => simp [Option.or]
    | none =>
      by_cases hk : r.name = k
      · simp [Option.or, List.find?, hk]
      · have : (r.name == k) = false := beq_false_of_ne hk
        simp [Option.or, List.find?, this, Ne.symm hk]

/-- `find?` is permutation invariant when at most one element satisfies
the predicate. -/
theorem find_eq_of_perm_unique {α : Type u} (p : α → Bool) {l₁ l₂ : List α}
    (hperm : l₁.Perm l₂)
    (hu : ∀ x ∈ l₁, ∀ y ∈ l₁, p x = true → p y = true → x = y) :
    l₁.find? p = l₂.find? p := by
  cases h₁ : l₁.find? p with
  | none =>
    have h₂ : ∀ x ∈ l₂, ¬ (p x = true) :=
      fun x hx => (List.find?_eq_none.mp h₁) x (hperm.mem_iff.mpr hx)
    exact (List.find?_eq_none.mpr h₂).symm
  | some a =>
    have ha : a ∈ l₁ := List.mem_of_find?_eq_some h₁
    have hpa : p a = true := List.find?_some h₁
    have hsome : (l₂.find? p).isSome :=
      List.find?_isSome.mpr ⟨a, hperm.mem_iff.mp ha, hpa⟩
    cases hfound : l₂.find? p with
    | none => simp [hfound] at hsome
    | some b =>
      have hb : b ∈ l₁ := hperm.mem_iff.mpr (List.mem_of_find?_eq_some hfound)
      have hpb : p b = true := List.find?_some hfound
      rw [hu a ha b hb hpa hpb]

/-- Among the three rule results, names identify results uniquely. -/
theorem ruleResults_unique (c : ConfigSpec) (k : String) :
    ∀ x ∈ ruleResults c, ∀ y ∈ ruleResults c,
      (x.name == k) = true → (y.name == k) = true → x = y := by
  intro x hx y hy hpx hpy
  simp only [ruleResults, List.mem_cons, List.not_mem_nil, or_false] at hx hy
  rw [beq_iff_eq] at hpx hpy
  rcases hx with rfl | rfl | rfl <;> rcases hy with rfl | rfl | rfl <;>
    simp only [decideCompute_name, decideNetwork_name, decideStorage_name] at hpx hpy <;>
    first
      | rfl
      | exact absurd (hpx.trans hpy.symm) (by decide)

/-- Looking up the aggregate of the three rule results is the same for
every channel-arrival order. -/
theorem lookupArrivals_perm (c : ConfigSpec) {a : List TimedResult}
    (h : a.Perm (ruleResults c)) (k : String) :
    lookupArrivals a (fun _ => none) k = lookupArrivals (ruleResults c) (fun _ => none) k := by
  have hperm : a.reverse.Perm (ruleResults c).reverse :=
    ((List.reverse_perm a).trans h).trans (List.reverse_perm _).symm
  have hu : ∀ x ∈ a.reverse, ∀ y ∈ a.reverse,
      (x.name == k) = true → (y.name == k) = true → x = y := by
    intro x hx y hy hpx hpy
    have hx' : x ∈ ruleResults c := h.mem_iff.mp (List.mem_reverse.mp hx)
    have hy' : y ∈ ruleResults c := h.mem_iff.mp (List.mem_reverse.mp hy)
    exact ruleResults_unique c k x hx' y hy' hpx hpy
  simp only [lookupArrivals]
  rw [find_eq_of_perm_unique _ hperm hu]

/-- The final map built from the three rule results in spawn order,
written out explicitly. -/
theorem lookupArrivals_ruleResults (c : ConfigSpec) (k : String) :
    lookupArrivals (ruleResults c) (fun _ => none) k = resultMapFor c k := by
  rcases eq_or_ne k "compute" with h1 | h1
  · subst h1; simp [lookupArrivals, ruleResults, resultMapFor, List.find?]
  rcases eq_or_ne k "network" with h2 | h2
  · subst h2; simp [lookupArrivals, ruleResults, resultMapFor, List.find?]
  rcases eq_or_ne k "storage" with h3 | h3
  · subst h3; simp [lookupArrivals, ruleResults, resultMapFor, List.find?]
  · have e1 : ("compute" == k) = false := beq_eq_false_iff_ne.mpr (Ne.symm h1)
    have e2 : ("network" == k) = false := beq_eq_false_iff_ne.mpr (Ne.symm h2)
    have e3 : ("storage" == k) = false := beq_eq_false_iff_ne.mpr (Ne.symm h3)
    simp [lookupArrivals, ruleResults, resultMapFor, List.find?, e1, e2, e3, h1, h2, h3]

/-- The aggregator, fed any permutation of the three rule results,
succeeds with the explicit success map. -/
theorem collect_perm_ruleResults (c : ConfigSpec) {a : List TimedResult}
    (h : a.Perm (ruleResults c)) :
    collectTimedResourceSpecs a = (some (resultMapFor c), none) := by
  have herr : ∀ r ∈ a, r.error = none := by
    intro r hr
    have hmem : r ∈ ruleResults c := h.mem_iff.mp hr
    simp only [ruleResults, List.mem_cons, List.not_mem_nil, or_false] at hmem
    rcases hmem with rfl | rfl | rfl <;> simp
  rw [collectTimedResourceSpecs, collectLoop_ok a _ herr]
  simp only [Prod.mk.injEq, and_true, Option.some.injEq]
  funext k
  rw [lookupArrivals_perm c h k, lookupArrivals_ruleResults]

/-- C1 (counterexample): at expectedLoad 350, importance high, dataSize 60
the compute rule does not return memory "316Mi"; the dataSize override
computes 256 + 60/4 = 271, so the memory string is "271Mi". -/
theorem compute_350_high_60_not_316Mi :
    ¬ (cfg350.decideCompute.computeSpec.memory = "316Mi") := by
  decide

/-- C1 (amended): for every input with expectedLoad 350, importance high
and dataSize 60, the compute rule returns CPU = 350/150 + 0.75 + 0.25 and
memory "271Mi" = (256 + 60/4)Mi, the dataSize override winning over the
importance-based "1Gi". -/
theorem compute_350_high_60_amended (c : ConfigSpec)
    (h1 : c.expectedLoad = 350) (h2 : c.importanceLevel = "high")
    (h3 : c.dataSize = 60) :
    c.decideCompute.computeSpec.cpu = 350 / 150 + 0.75 + 0.25 ∧
    c.decideCompute.computeSpec.memory = "271Mi" ∧
    c.decideCompute.computeSpec.memory = toString (256 + (60 : Int).tdiv 4) ++ "Mi" := by
  refine ⟨?_, ?_, ?_⟩
  · simp [ConfigSpec.decideCompute, h1, h2, h3]
  · simp only [ConfigSpec.decideCompute, h1, h2, h3]
    decide
  · simp [ConfigSpec.decideCompute, h1, h2, h3]

/-- C1 (witness): the amended statement evaluated at the concrete input. -/
theorem compute_350_high_60_amended_witness :
    cfg350.decideCompute.computeSpec.cpu = 350 / 150 + 0.75 + 0.25 ∧
    cfg350.decideCompute.computeSpec.memory = "271Mi" ∧
    cfg350.decideCompute.computeSpec.memory = toString (256 + (60 : Int).tdiv 4) ++ "Mi" :=
  compute_350_high_60_amended cfg350 rfl rfl rfl

/-- C2: whenever dataSize > 50, the compute rule returns memory
(256 + dataSize/4)Mi with truncating division, regardless of expectedLoad
and importanceLevel. -/
theorem compute_memory_dataSize_override (c : ConfigSpec) (h : c.dataSize > 50) :
    c.decideCompute.computeSpec.memory = toString (256 + c.dataSize.tdiv 4) ++ "Mi" := by
  simp [ConfigSpec.decideCompute, h]

/-- C2 (witness): the dataSize override at a concrete input. -/
theorem compute_memory_dataSize_override_witness :
    cfgData60.decideCompute.computeSpec.memory =
      toString (256 + cfgData60.dataSize.tdiv 4) ++ "Mi" :=
  compute_memory_dataSize_override cfgData60 (by decide)

/-- C4: at dataSize 300 with importance high the storage rule returns
capacity "20Gi" (the importance override replaces the dataSize-derived
"8Gi") while the class stays "premium". -/
theorem storage_300_high_capacity_override (c : ConfigSpec)
    (h1 : c.dataSize = 300) (h2 : c.importanceLevel = "high") :
    c.decideStorage.storageSpec = { capacity := "20Gi", storageClass := "premium" } := by
  simp [ConfigSpec.decideStorage, h1, h2]

/-- C4 (witness): the storage override at the concrete input. -/
theorem storage_300_high_capacity_override_witness :
    cfgStorage300.decideStorage.storageSpec =
      { capacity := "20Gi", storageClass := "premium" } :=
  storage_300_high_capacity_override cfgStorage300 rfl rfl

/-- C7: for every input the network rule returns bandwidth "50Mbps" when
networkTraffic ≤ 25 and "200Mbps" when networkTraffic > 25, and ports
[8080] when importance is not high, [8080, 443] when it is. -/
theorem network_rule_spec (c : ConfigSpec) :
    (c.networkTraffic ≤ 25 → c.decideNetwork.networkSpec.bandwidth = "50Mbps") ∧
    (c.networkTraffic > 25 → c.decideNetwork.networkSpec.bandwidth = "200Mbps") ∧
    (c.importanceLevel ≠ "high" → c.decideNetwork.networkSpec.ports = [8080]) ∧
    (c.importanceLevel = "high" → c.decideNetwork.networkSpec.ports = [8080, 443]) := by
  refine ⟨fun h => ?_, fun h => ?_, fun h => ?_, fun h => ?_⟩ <;>
    simp [ConfigSpec.decideNetwork, h, not_lt.mpr]

/-- C7 (witness): both bandwidth branches and both port branches at
concrete inputs, including networkTraffic 30 with importance high. -/
theorem network_rule_spec_witness :
    cfg350.decideNetwork.networkSpec.bandwidth = "200Mbps" ∧
    cfg350.decideNetwork.networkSpec.ports = [8080, 443] ∧
    cfgData60.decideNetwork.networkSpec.bandwidth = "50Mbps" ∧
    cfgData60.decideNetwork.networkSpec.ports = [8080] :=
  ⟨(network_rule_spec cfg350).2.1 (by decide),
   (network_rule_spec cfg350).2.2.2 rfl,
   (network_rule_spec cfgData60).1 (by decide),
   (network_rule_spec cfgData60).2.2.1 (by decide)⟩

/-- C10: for every input with importance high and dataSize ≤ 250, the
storage rule returns capacity "20Gi" with class "standard": the override
raises capacity but leaves the class at its default. -/
theorem storage_high_small_data (c : ConfigSpec)
    (h1 : c.importanceLevel = "high") (h2 : c.dataSize ≤ 250) :
    c.decideStorage.storageSpec = { capacity := "20Gi", storageClass := "standard" } := by
  simp [ConfigSpec.decideStorage, h1, not_lt.mpr h2]

/-- C10 (witness): the high-importance small-data storage decision at a
concrete input. -/
theorem storage_high_small_data_witness :
    cfgSmallHigh.decideStorage.storageSpec =
      { capacity := "20Gi", storageClass := "standard" } :=
  storage_high_small_data cfgSmallHigh rfl (by decide)

/-- C5: if any arrival carries a failure, the aggregator returns a nil
result collection together with a single error naming the failing
decision; fed the three rule results in any arrival order, it succeeds
with a map keyed by exactly "compute", "network" and "storage". -/
theorem aggregator_failure_and_success (arrivals : List TimedResult) :
    ((∃ r ∈ arrivals, r.error ≠ none) →
      (collectTimedResourceSpecs arrivals).1 = none ∧
      ∃ r ∈ arrivals, ∃ e, r.error = some e ∧
        (collectTimedResourceSpecs arrivals).2 =
          some ("error in " ++ r.name ++ " decision: " ++ e)) ∧
    (∀ c : ConfigSpec, arrivals.Perm (ruleResults c) →
      ∃ m, collectTimedResourceSpecs arrivals = (some m, none) ∧
        ∀ k : String, (m k).isSome ↔ (k = "compute" ∨ k = "network" ∨ k = "storage")) := by
  constructor
  · intro h
    obtain ⟨r, hr, e, he, hc⟩ := collectLoop_error arrivals (fun _ => none) h
    refine ⟨?_, r, hr, e, he, ?_⟩
    · show (collectLoop arrivals (fun _ => none)).1 = none
      rw [hc]
    · show (collectLoop arrivals (fun _ => none)).2 = _
      rw [hc]
  · intro c hperm
    refine ⟨resultMapFor c, collect_perm_ruleResults c hperm, fun k => ?_⟩
    by_cases h1 : k = "compute"
    · simp [resultMapFor, h1]
    by_cases h2 : k = "network"
    · simp [resultMapFor, h1, h2]
    by_cases h3 : k = "storage"
    · simp [resultMapFor, h1, h2, h3]
    · simp [resultMapFor, h1, h2, h3]

/-- C5 (witness): a failing arrival makes the aggregate nil, and the three
real rule results in spawn order succeed with the three expected keys. -/
theorem aggregator_failure_and_success_witness :
    (collectTimedResourceSpecs [badNetworkResult]).1 = none ∧
    ∃ m, collectTimedResourceSpecs (ruleResults cfgMedium) = (some m, none) ∧
      ∀ k : String, (m k).isSome ↔ (k = "compute" ∨ k = "network" ∨ k = "storage") := by
  constructor
  · exact ((aggregator_failure_and_success [badNetworkResult]).1
      ⟨badNetworkResult, List.mem_singleton_self _, by simp [badNetworkResult]⟩).1
  · exact (aggregator_failure_and_success (ruleResults cfgMedium)).2 cfgMedium (List.Perm.refl _)

/-- C8: the rule outputs are pure functions of the input and the
aggregated map does not depend on the channel-arrival order: any two
arrival orders of the three rule results give the same aggregator output,
whose entries are exactly the rule outputs. -/
theorem rules_order_independent (c : ConfigSpec) (a₁ a₂ : List TimedResult)
    (h₁ : a₁.Perm (ruleResults c)) (h₂ : a₂.Perm (ruleResults c)) :
    collectTimedResourceSpecs a₁ = collectTimedResourceSpecs a₂ ∧
    ∃ m, collectTimedResourceSpecs a₁ = (some m, none) ∧
      m "compute" = some c.decideCompute ∧
      m "network" = some c.decideNetwork ∧
      m "storage" = some c.decideStorage := by
  refine ⟨?_, resultMapFor c, collect_perm_ruleResults c h₁, ?_, ?_, ?_⟩
  · rw [collect_perm_ruleResults c h₁, collect_perm_ruleResults c h₂]
  · simp [resultMapFor]
  · simp [resultMapFor]
  · simp [resultMapFor]

/-- C8 (witness): reversed arrival order gives the same aggregate as spawn
order at a concrete input. -/
theorem rules_order_independent_witness :
    collectTimedResourceSpecs (ruleResults cfgMedium).reverse =
      collectTimedResourceSpecs (ruleResults cfgMedium) ∧
    ∃ m, collectTimedResourceSpecs (ruleResults cfgMedium).reverse = (some m, none) ∧
      m "compute" = some cfgMedium.decideCompute ∧
      m "network" = some cfgMedium.decideNetwork ∧
      m "storage" = some cfgMedium.decideStorage :=
  rules_order_independent cfgMedium _ _ (List.reverse_perm _) (List.Perm.refl _)

/-- C9: none of the three rule functions ever signals a failure, so for
any arrival order of their results the aggregator's failure branch is
unreachable: the returned error is nil and the returned map is not. -/
theorem rules_total_no_failure (c : ConfigSpec) :
    c.decideCompute.error = none ∧ c.decideNetwork.error = none ∧
    c.decideStorage.error = none ∧
    ∀ a : List TimedResult, a.Perm (ruleResults c) →
      (collectTimedResourceSpecs a).2 = none ∧ (collectTimedResourceSpecs a).1 ≠ none := by
  refine ⟨rfl, rfl, rfl, fun a h => ?_⟩
  rw [collect_perm_ruleResults c h]
  simp

/-- C9 (witness): no error field and no aggregate error at a concrete
input in spawn order. -/
theorem rules_total_no_failure_witness :
    cfgMedium.decideCompute.error = none ∧
    (collectTimedResourceSpecs (ruleResults cfgMedium)).2 = none :=
  ⟨(rules_total_no_failure cfgMedium).1,
   ((rules_total_no_failure cfgMedium).2.2.2 (ruleResults cfgMedium) (List.Perm.refl _)).1⟩

/-- C6: the generated manifest is the descriptor template with requests
CPU = 0.8 times the compute CPU and limits CPU = the full compute CPU,
both rendered with two decimals; requests memory equal to limits memory
(both the compute memory string); a ports section that is the
concatenation of exactly one containerPort entry per network port, in
order; and the bandwidth, capacity and class environment values. -/
theorem manifest_structure (appName : String)
    (timedResults : String → Option TimedResult) (ports : List Int) :
    generateKubernetesManifest appName timedResults ports =
      specManifest appName
        (formatFloat2 (((timedResults "compute").getD default).computeSpec.cpu * 0.8))
        ((timedResults "compute").getD default).computeSpec.memory
        (formatFloat2 ((timedResults "compute").getD default).computeSpec.cpu)
        ((timedResults "compute").getD default).computeSpec.memory
        (concatStrings (ports.map portEntry))
        ((timedResults "network").getD default).networkSpec.bandwidth
        ((timedResults "storage").getD default).storageSpec.capacity
        ((timedResults "storage").getD default).storageSpec.storageClass := by
  simp only [generateKubernetesManifest, specManifest]
  rw [foldl_portEntry_eq ports "", String.empty_append]

/-- C3 (counterexample): with all three decisions successful but the
manifest write failing, the produced output string is empty and the done
view shows only the error, not the decision summary. -/
theorem manifest_io_failure_suppresses_summary_example :
    (updateProcessComplete (processingModel cfgMedium) (resultMapFor cfgMedium)
        (some "error writing Kubernetes manifest: permission denied")).output = "" ∧
    (updateProcessComplete (processingModel cfgMedium) (resultMapFor cfgMedium)
        (some "error writing Kubernetes manifest: permission denied")).err =
      some "failed to generate/write manifest: error writing Kubernetes manifest: permission denied" ∧
    viewDone (updateProcessComplete (processingModel cfgMedium) (resultMapFor cfgMedium)
        (some "error writing Kubernetes manifest: permission denied")) =
      "# Error\n\n```\nfailed to generate/write manifest: error writing Kubernetes manifest: permission denied\n```" := by
  refine ⟨rfl, ?_, ?_⟩ <;> decide

/-- C3 (amended): when the results message arrives but generating or
writing the manifest fails, the failure replaces the decision summary:
the error field is set, `generateOutput` returns the empty string, and the
done view renders only the error message. -/
theorem manifest_io_failure_replaces_summary (m : AppModel)
    (msg : String → Option TimedResult) (e : String) :
    (updateProcessComplete m msg (some e)).err =
        some ("failed to generate/write manifest: " ++ e) ∧
    (updateProcessComplete m msg (some e)).output = "" ∧
    viewDone (updateProcessComplete m msg (some e)) =
      "# Error\n\n```\n" ++ ("failed to generate/write manifest: " ++ e) ++ "\n```" :=
  ⟨rfl, rfl, rfl⟩
